import Mathlib

/-!
Shallow embedding of `src/pdf_locker.py` (a CLI tool that encrypts a PDF with a
user-supplied or generated password) and proofs about its password policy,
password generator, and orchestration pipeline.

Strings are modelled as `List Char`; Python's character-class predicates
(`str.isdigit`, `str.isupper`, `str.islower`) are modelled by the ASCII
predicates `Char.isDigit`, `Char.isUpper`, `Char.isLower`, adequate for the
ASCII alphabets this program works with.  Randomness (`random.choice`,
`random.shuffle`) is modelled by passing an arbitrary stream of draws
`rand : Nat → Nat`; `random.choice(seq)` becomes indexing by the draw modulo
the length, and `random.shuffle` becomes the Fisher–Yates swap loop that
CPython's `random.shuffle` performs, driven by the same stream.  The PDF
library and the filesystem are modelled by a map from paths to file contents.
-/

/-- The fixed special-character set of the password policy: the Python string
literal "!@#$%^&*()-_+=<>?/" from `validate_password_strength` and
`generate_random_password`. -/
def special_characters : List Char :=
  ['!', '@', '#', '$', '%', '^', '&', '*', '(', ')', '-', '_', '+', '=', '<', '>', '?', '/']

/-- Python's `string.digits`. -/
def digits : List Char :=
  ['0', '1', '2', '3', '4', '5', '6', '7', '8', '9']

/-- Python's `string.ascii_uppercase`. -/
def ascii_uppercase : List Char :=
  ['A', 'B', 'C', 'D', 'E', 'F', 'G', 'H', 'I', 'J', 'K', 'L', 'M',
   'N', 'O', 'P', 'Q', 'R', 'S', 'T', 'U', 'V', 'W', 'X', 'Y', 'Z']

/-- Python's `string.ascii_lowercase`. -/
def ascii_lowercase : List Char :=
  ['a', 'b', 'c', 'd', 'e', 'f', 'g', 'h', 'i', 'j', 'k', 'l', 'm',
   'n', 'o', 'p', 'q', 'r', 's', 't', 'u', 'v', 'w', 'x', 'y', 'z']

/-- Python's `string.ascii_letters` (lowercase followed by uppercase). -/
def ascii_letters : List Char := ascii_lowercase ++ ascii_uppercase

/-- The alphabet for the generator's twelve fill characters:
`string.ascii_letters + string.digits + special_characters`
(line 58 of src/pdf_locker.py). -/
def all_characters : List Char := ascii_letters ++ digits ++ special_characters

/-- The reasons `validate_password_strength` can raise `ValueError`, in the
order its checks run. -/
inductive PolicyViolation where
  | TooShort
  | MissingDigit
  | MissingUppercase
  | MissingLowercase
  | MissingSpecial
deriving DecidableEq, Repr

deriving instance DecidableEq for Except

/-- Embedding of `validate_password_strength` (lines 10–33): the `raise`
branches become `Except.error`, the final `return True` becomes
`Except.ok true`.  The checks appear in exactly the source order. -/
def validate_password_strength (password : List Char) : Except PolicyViolation Bool :=
  if password.length < 16 then .error .TooShort
  else if ¬ password.any Char.isDigit then .error .MissingDigit
  else if ¬ password.any Char.isUpper then .error .MissingUppercase
  else if ¬ password.any Char.isLower then .error .MissingLowercase
  else if ¬ password.any (fun c => decide (c ∈ special_characters)) then .error .MissingSpecial
  else .ok true

/-- Python's `random.choice(l)` under a draw `n`: the element at index
`n % l.length` (for nonempty `l` every element is reachable, and the result is
always a member of `l`). -/
def choice (l : List Char) (n : Nat) : Char := l.getD (n % l.length) '?'

/-- One step of CPython's `random.shuffle`: `x[i], x[j] = x[j], x[i]`. -/
def swapList (l : List Char) (i j : Nat) : List Char :=
  match l[i]?, l[j]? with
  | some a, some b => (l.set i b).set j a
  | _, _ => l

/-- The Fisher–Yates loop of CPython's `random.shuffle`:
`for i in reversed(range(1, len(x))): j = randbelow(i+1); swap x[i] x[j]`.
The counter is the current index `i`; the draw for index `i` is
`rand i % (i+1)`. -/
def fisherYates (rand : Nat → Nat) : Nat → List Char → List Char
  | 0, l => l
  | i + 1, l => fisherYates rand i (swapList l (i + 1) (rand (i + 1) % (i + 2)))

/-- Embedding of `random.shuffle(l)` driven by the draw stream `rand`. -/
def pyShuffle (l : List Char) (rand : Nat → Nat) : List Char :=
  fisherYates rand (l.length - 1) l

/-- Embedding of `generate_random_password` (lines 36–65).  The draw stream is
threaded positionally: draws 0–3 feed the four mandatory `random.choice`
calls (digit, uppercase, special, lowercase — in the source order), draws
4–15 feed the twelve fill choices from `all_characters`, and draws 16 upward
feed the shuffle. -/
def generate_random_password (rand : Nat → Nat) : List Char :=
  let password : List Char :=
    [choice digits (rand 0),
     choice ascii_uppercase (rand 1),
     choice special_characters (rand 2),
     choice ascii_lowercase (rand 3)]
  let fill : List Char := (List.range 12).map (fun k => choice all_characters (rand (4 + k)))
  pyShuffle (password ++ fill) (fun k => rand (16 + k))

/-- Messages the program prints that matter to the claims (colors dropped). -/
inductive OutMsg where
  /-- "Generating a strong random password..." (line 127). -/
  | generatingMsg
  /-- "Generated password: {p}" (lines 130 and 141). -/
  | generatedPasswordMsg (p : List Char)
  /-- "No password entered. Generating a strong random password..." (line 138). -/
  | noPasswordMsg
  /-- "Password Error: {e}" (lines 107 and 149). -/
  | passwordErrorMsg (v : PolicyViolation)
  /-- "Please try again." (line 150). -/
  | tryAgainMsg
  /-- "Locking with password: {password}" (line 82). -/
  | lockingMsg (p : List Char)
  /-- "Password-protected PDF saved as {output_pdf}" (line 100). -/
  | savedMsg (path : String)
  /-- "Error: The file '{input_pdf}' was not found." (line 103). -/
  | notFoundMsg (path : String)
  /-- "Error: The file '{input_pdf}' is not a valid PDF." (line 105). -/
  | notValidPdfMsg (path : String)
deriving DecidableEq, Repr

/-- How the password reaching `create_password_protected_pdf` was obtained. -/
inductive ResolvedPassword where
  | user (p : List Char)
  | generated (p : List Char)
deriving DecidableEq, Repr

/-- The character sequence of a resolved password. -/
def ResolvedPassword.password : ResolvedPassword → List Char
  | .user p => p
  | .generated p => p

/-- Contents of a file in the filesystem model. -/
inductive FileContent where
  /-- A valid PDF with `pages` pages. -/
  | pdf (pages : Nat)
  /-- A PDF encrypted by this program: same pages, protected by `password`. -/
  | encryptedPdf (pages : Nat) (password : List Char)
  /-- A file that exists but cannot be parsed as a PDF. -/
  | notPdf
deriving DecidableEq, Repr

/-- Outcome of one `create_password_protected_pdf` call. -/
inductive LockResult where
  | passwordError (v : PolicyViolation)
  | inputNotFound
  | inputUnreadable
  | success (pages : Nat)
deriving DecidableEq, Repr

/-- Embedding of `create_password_protected_pdf` (lines 68–109) over a
filesystem modelled as `String → Option FileContent`.  Mirrors the source
order: validate the password (a failure is caught by the `except ValueError`
arm and printed), print the password, open and parse the input (the
`FileNotFoundError` and `PdfReadError` arms), and only then write the
encrypted output.  Returns the outcome, the filesystem after the call, and
the printed messages in order. -/
def create_password_protected_pdf (fs : String → Option FileContent)
    (input_pdf output_pdf : String) (password : List Char) :
    LockResult × (String → Option FileContent) × List OutMsg :=
  match validate_password_strength password with
  | .error v => (.passwordError v, fs, [.passwordErrorMsg v])
  | .ok _ =>
    match fs input_pdf with
    | none => (.inputNotFound, fs, [.lockingMsg password, .notFoundMsg input_pdf])
    | some (.pdf n) =>
        (.success n,
         fun path => if path = output_pdf then some (.encryptedPdf n password) else fs path,
         [.lockingMsg password, .savedMsg output_pdf])
    | some _ => (.inputUnreadable, fs, [.lockingMsg password, .notValidPdfMsg input_pdf])

/-- Python whitespace for `str.strip()` (ASCII part). -/
def pyIsSpace (c : Char) : Bool :=
  c = ' ' || c = '\t' || c = '\n' || c = '\x0b' || c = '\x0c' || c = '\r'

/-- Embedding of `str.strip()`: drop whitespace from both ends. -/
def pyStrip (s : List Char) : List Char :=
  ((s.dropWhile pyIsSpace).reverse.dropWhile pyIsSpace).reverse

/-- Embedding of `str.lower()` (ASCII). -/
def pyLower (s : List Char) : List Char := s.map Char.toLower

/-- Embedding of the manual password-entry loop of `main` (lines 133–150)
over the sequence of passwords the user would type at successive prompts.
Empty input falls back to the generator and breaks; a valid password breaks;
an invalid one prints the error and "Please try again." and loops.  `none`
means the script of inputs ran out while the loop would still be prompting. -/
def password_entry_loop (rand : Nat → Nat) :
    List (List Char) → List OutMsg × Option ResolvedPassword
  | [] => ([], none)
  | p :: rest =>
    if p.isEmpty then
      ([.noPasswordMsg, .generatedPasswordMsg (generate_random_password rand)],
       some (.generated (generate_random_password rand)))
    else
      match validate_password_strength p with
      | .ok _ => ([], some (.user p))
      | .error v =>
        (.passwordErrorMsg v :: .tryAgainMsg :: (password_entry_loop rand rest).1,
         (password_entry_loop rand rest).2)

/-- Embedding of the password-resolution phase of `main` (lines 124–150):
the answer to "Would you like to generate a strong random password? (y/n)"
is stripped and lowercased and compared to "y"; on a match the password is
generated, otherwise the manual entry loop runs. -/
def resolve_password (rand : Nat → Nat) (answer : List Char)
    (entries : List (List Char)) : List OutMsg × Option ResolvedPassword :=
  if pyLower (pyStrip answer) = ['y'] then
    ([.generatingMsg, .generatedPasswordMsg (generate_random_password rand)],
     some (.generated (generate_random_password rand)))
  else
    password_entry_loop rand entries

/-- Embedding of `main` after argument parsing (lines 124–152): resolve a
password, then run `create_password_protected_pdf` with it.  Returns the
full message trace, the lock outcome (`none` when the entry loop never
resolved), and the final filesystem. -/
def main_run (fs : String → Option FileContent) (input output : String)
    (rand : Nat → Nat) (answer : List Char) (entries : List (List Char)) :
    List OutMsg × Option LockResult × (String → Option FileContent) :=
  match resolve_password rand answer entries with
  | (msgs, none) => (msgs, none, fs)
  | (msgs, some r) =>
    let res := create_password_protected_pdf fs input output r.password
    (msgs ++ res.2.2, some res.1, res.2.1)

/-! Permutation facts about the embedded `random.shuffle`. -/

/-- Writing an element over the position that already holds it, after moving
that element to the front, is a permutation of moving the overwritten element
to the front. -/
theorem cons_set_perm (x b : Char) :
    ∀ (l : List Char) (k : Nat), l[k]? = some b → (b :: l.set k x).Perm (x :: l)
  | [], k, h => by simp at h
  | y :: ys, 0, h => by
      simp only [List.getElem?_cons_zero, Option.some.injEq] at h
      subst h
      exact List.Perm.swap x y ys
  | y :: ys, k + 1, h => by
      simp only [List.getElem?_cons_succ] at h
      show List.Perm (b :: y :: ys.set k x) (x :: y :: ys)
      exact ((List.Perm.swap y b (ys.set k x)).trans
        ((cons_set_perm x b ys k h).cons y)).trans (List.Perm.swap x y ys)

/-- Swapping the values at two valid positions of a list permutes it. -/
theorem set_set_perm :
    ∀ (l : List Char) (i j : Nat) (a b : Char),
      l[i]? = some a → l[j]? = some b → ((l.set i b).set j a).Perm l
  | [], _, _, _, _, ha, _ => by simp at ha
  | x :: xs, 0, 0, a, b, ha, hb => by
      simp only [List.getElem?_cons_zero, Option.some.injEq] at ha hb
      subst ha; subst hb
      exact List.Perm.refl _
  | x :: xs, 0, j + 1, a, b, ha, hb => by
      simp only [List.getElem?_cons_zero, Option.some.injEq] at ha
      simp only [List.getElem?_cons_succ] at hb
      subst ha
      exact cons_set_perm x b xs j hb
  | x :: xs, i + 1, 0, a, b, ha, hb => by
      simp only [List.getElem?_cons_zero, Option.some.injEq] at hb
      simp only [List.getElem?_cons_succ] at ha
      subst hb
      exact cons_set_perm x a xs i ha
  | x :: xs, i + 1, j + 1, a, b, ha, hb => by
      simp only [List.getElem?_cons_succ] at ha hb
      exact List.Perm.cons x (set_set_perm xs i j a b ha hb)

/-- `swapList` always permutes its input. -/
theorem swapList_perm (l : List Char) (i j : Nat) : (swapList l i j).Perm l := by
  cases h1 : l[i]? with
  | none => simp [swapList, h1]
  | some a =>
    cases h2 : l[j]? with
    | none => simp [swapList, h1, h2]
    | some b =>
      simpa [swapList, h1, h2] using set_set_perm l i j a b h1 h2

/-- Every run of the Fisher–Yates loop permutes the list. -/
theorem fisherYates_perm (rand : Nat → Nat) :
    ∀ (n : Nat) (l : List Char), (fisherYates rand n l).Perm l
  | 0, _ => .refl _
  | n + 1, l =>
      (fisherYates_perm rand n _).trans (swapList_perm l (n + 1) _)

/-- `random.shuffle` permutes its input for every draw stream. -/
theorem pyShuffle_perm (l : List Char) (rand : Nat → Nat) : (pyShuffle l rand).Perm l :=
  fisherYates_perm rand (l.length - 1) l

/-! Facts about `random.choice` and the character classes. -/

/-- `random.choice` of a nonempty list returns a member of that list. -/
theorem choice_mem {l : List Char} (h : l ≠ []) (n : Nat) : choice l n ∈ l := by
  have hlen : 0 < l.length := List.length_pos.mpr h
  have hlt : n % l.length < l.length := Nat.mod_lt n hlen
  rw [choice, List.getD_eq_getElem l '?' hlt]
  exact List.getElem_mem hlt

theorem mem_digits_isDigit : ∀ c ∈ digits, c.isDigit = true := by decide

theorem mem_uppercase_isUpper : ∀ c ∈ ascii_uppercase, c.isUpper = true := by decide

theorem mem_lowercase_isLower : ∀ c ∈ ascii_lowercase, c.isLower = true := by decide

/-! The generator's output seen as a permutation of its pre-shuffle list. -/

/-- The list `generate_random_password` builds before shuffling. -/
def generator_base (rand : Nat → Nat) : List Char :=
  [choice digits (rand 0),
   choice ascii_uppercase (rand 1),
   choice special_characters (rand 2),
   choice ascii_lowercase (rand 3)]
  ++ (List.range 12).map (fun k => choice all_characters (rand (4 + k)))

/-- The generated password is a permutation of the pre-shuffle list. -/
theorem generate_random_password_perm (rand : Nat → Nat) :
    (generate_random_password rand).Perm (generator_base rand) :=
  pyShuffle_perm (generator_base rand) (fun k => rand (16 + k))

/-- The generated password always has exactly 16 characters. -/
theorem generate_random_password_length (rand : Nat → Nat) :
    (generate_random_password rand).length = 16 := by
  rw [(generate_random_password_perm rand).length_eq]
  simp [generator_base]

/-- The generated password always satisfies the policy. -/
theorem generate_random_password_valid (rand : Nat → Nat) :
    validate_password_strength (generate_random_password rand) = .ok true := by
  have hperm := generate_random_password_perm rand
  have hd : (generate_random_password rand).any Char.isDigit = true := by
    refine List.any_eq_true.mpr ⟨choice digits (rand 0), ?_, ?_⟩
    · exact hperm.mem_iff.mpr (by simp [generator_base])
    · exact mem_digits_isDigit _ (choice_mem (by decide) _)
  have hu : (generate_random_password rand).any Char.isUpper = true := by
    refine List.any_eq_true.mpr ⟨choice ascii_uppercase (rand 1), ?_, ?_⟩
    · exact hperm.mem_iff.mpr (by simp [generator_base])
    · exact mem_uppercase_isUpper _ (choice_mem (by decide) _)
  have hl : (generate_random_password rand).any Char.isLower = true := by
    refine List.any_eq_true.mpr ⟨choice ascii_lowercase (rand 3), ?_, ?_⟩
    · exact hperm.mem_iff.mpr (by simp [generator_base])
    · exact mem_lowercase_isLower _ (choice_mem (by decide) _)
  have hs : (generate_random_password rand).any
      (fun c => decide (c ∈ special_characters)) = true := by
    refine List.any_eq_true.mpr ⟨choice special_characters (rand 2), ?_, ?_⟩
    · exact hperm.mem_iff.mpr (by simp [generator_base])
    · exact decide_eq_true (choice_mem (by decide) _)
  unfold validate_password_strength
  rw [generate_random_password_length rand]
  simp [hd, hu, hl, hs]

/-! Claim theorems about the password policy and generator. -/

/-- C1: for every candidate string, password validation succeeds iff the
string has length at least 16 and contains at least one digit, one uppercase
letter, one lowercase letter, and one character from the fixed
special-character set. -/
theorem validate_password_strength_ok_iff (p : List Char) :
    validate_password_strength p = .ok true ↔
      (16 ≤ p.length ∧ (∃ c ∈ p, c.isDigit) ∧ (∃ c ∈ p, c.isUpper) ∧
       (∃ c ∈ p, c.isLower) ∧ (∃ c ∈ p, c ∈ special_characters)) := by
  unfold validate_password_strength
  split_ifs with h1 h2 h3 h4 h5 <;>
    simp_all [List.any_eq_true, Nat.not_lt, Nat.lt_iff_add_one_le]

/-- C1 witness: the theorem applied to a concrete 16-character password. -/
theorem validate_password_strength_ok_iff_witness :
    validate_password_strength "Aa1!Aa1!Aa1!Aa1!".toList = .ok true ↔
      (16 ≤ "Aa1!Aa1!Aa1!Aa1!".toList.length ∧
       (∃ c ∈ "Aa1!Aa1!Aa1!Aa1!".toList, c.isDigit) ∧
       (∃ c ∈ "Aa1!Aa1!Aa1!Aa1!".toList, c.isUpper) ∧
       (∃ c ∈ "Aa1!Aa1!Aa1!Aa1!".toList, c.isLower) ∧
       (∃ c ∈ "Aa1!Aa1!Aa1!Aa1!".toList, c ∈ special_characters)) :=
  validate_password_strength_ok_iff "Aa1!Aa1!Aa1!Aa1!".toList

/-- C2: for every stream of random draws, the generated password has exactly
16 characters and always passes validation. -/
theorem generate_random_password_spec (rand : Nat → Nat) :
    (generate_random_password rand).length = 16 ∧
      validate_password_strength (generate_random_password rand) = .ok true :=
  ⟨generate_random_password_length rand, generate_random_password_valid rand⟩

/-- C3 counterexample: the fill alphabet has 80 characters, not 66 — the
special-character set contributes 18 characters, so 26+26+10+18 = 80. -/
theorem all_characters_not_66 :
    all_characters.length = 80 ∧ ¬ all_characters.length = 66 := by
  exact ⟨by decide, by decide⟩

/-- C3 amended: the fill alphabet is the union (as a permutation of the
concatenation) of digits, uppercase letters, lowercase letters and the
special-character set, and it has exactly 80 characters. -/
theorem all_characters_union_80 :
    all_characters.Perm (digits ++ ascii_uppercase ++ ascii_lowercase ++ special_characters)
      ∧ all_characters.length = 80 := by
  constructor
  · rw [← List.isPerm_iff]
    decide
  · decide

/-- C4: validation checks run in the order length, digit, uppercase,
lowercase, special, and only the first failing check is reported; every
string shorter than 16 characters — the empty string included — is reported
as TooShort. -/
theorem validate_password_strength_first_failure (p : List Char) :
    (validate_password_strength p = .error .TooShort ↔ p.length < 16)
    ∧ (validate_password_strength p = .error .MissingDigit ↔
        16 ≤ p.length ∧ ¬ ∃ c ∈ p, c.isDigit)
    ∧ (validate_password_strength p = .error .MissingUppercase ↔
        16 ≤ p.length ∧ (∃ c ∈ p, c.isDigit) ∧ ¬ ∃ c ∈ p, c.isUpper)
    ∧ (validate_password_strength p = .error .MissingLowercase ↔
        16 ≤ p.length ∧ (∃ c ∈ p, c.isDigit) ∧ (∃ c ∈ p, c.isUpper) ∧
          ¬ ∃ c ∈ p, c.isLower)
    ∧ (validate_password_strength p = .error .MissingSpecial ↔
        16 ≤ p.length ∧ (∃ c ∈ p, c.isDigit) ∧ (∃ c ∈ p, c.isUpper) ∧
          (∃ c ∈ p, c.isLower) ∧ ¬ ∃ c ∈ p, c ∈ special_characters)
    ∧ validate_password_strength [] = .error .TooShort := by
  refine ⟨?_, ?_, ?_, ?_, ?_, by decide⟩ <;>
    · unfold validate_password_strength
      split_ifs with h1 h2 h3 h4 h5 <;>
        simp_all [List.any_eq_true, Nat.not_lt, Nat.lt_iff_add_one_le]

/-! Helper lemmas about the pipeline. -/

/-- When validation returns `ok`, the payload is `true`. -/
theorem validate_ok_true {p : List Char} {b : Bool}
    (h : validate_password_strength p = .ok b) : b = true := by
  unfold validate_password_strength at h
  split_ifs at h
  all_goals simp_all

/-- The entry loop on a leading empty input: fall back to the generator. -/
theorem password_entry_loop_empty (rand : Nat → Nat) (rest : List (List Char)) :
    password_entry_loop rand ([] :: rest) =
      ([.noPasswordMsg, .generatedPasswordMsg (generate_random_password rand)],
       some (.generated (generate_random_password rand))) := rfl

/-- A user-resolved password coming out of the entry loop passed validation. -/
theorem password_entry_loop_user_valid (rand : Nat → Nat) :
    ∀ (entries : List (List Char)) (p : List Char),
      (password_entry_loop rand entries).2 = some (.user p) →
      validate_password_strength p = .ok true
  | [], p, hp => by simp [password_entry_loop] at hp
  | e :: es, p, hp => by
      rw [password_entry_loop] at hp
      split at hp
      · simp at hp
      · split at hp
        · next b heq =>
            simp at hp
            subst hp
            rw [heq, validate_ok_true heq]
        · exact password_entry_loop_user_valid rand es p hp

/-- Successful run of `create_password_protected_pdf` on a readable input. -/
theorem create_pdf_success (fs : String → Option FileContent)
    (input output : String) (p : List Char) (n : Nat)
    (hv : validate_password_strength p = .ok true)
    (hf : fs input = some (.pdf n)) :
    create_password_protected_pdf fs input output p =
      (.success n,
       fun path => if path = output then some (.encryptedPdf n p) else fs path,
       [.lockingMsg p, .savedMsg output]) := by
  unfold create_password_protected_pdf
  rw [hv, hf]

/-! Claim theorems about the orchestration pipeline. -/

/-- C5: a non-empty candidate that fails validation has its specific
violation reported, followed by a renewed prompt (the loop continues on the
remaining inputs); and the loop resolves to a user-supplied password only
when that password passed validation. -/
theorem password_entry_loop_sound (rand : Nat → Nat) (entries : List (List Char))
    (p q : List Char) (rest : List (List Char)) (v : PolicyViolation)
    (hp : (password_entry_loop rand entries).2 = some (.user p))
    (hq : q ≠ []) (hv : validate_password_strength q = .error v) :
    validate_password_strength p = .ok true ∧
      password_entry_loop rand (q :: rest) =
        (.passwordErrorMsg v :: .tryAgainMsg :: (password_entry_loop rand rest).1,
         (password_entry_loop rand rest).2) := by
  refine ⟨password_entry_loop_user_valid rand entries p hp, ?_⟩
  cases q with
  | nil => exact absurd rfl hq
  | cons c cs =>
    rw [password_entry_loop]
    simp [hv]

/-- C5 witness: a too-short candidate is reported and the caller re-asked; a
subsequently supplied valid password resolves the loop. -/
theorem password_entry_loop_sound_witness :
    validate_password_strength "Aa1!Aa1!Aa1!Aa1!".toList = .ok true ∧
      password_entry_loop (fun _ => 0) ("short1A!".toList :: ["Aa1!Aa1!Aa1!Aa1!".toList]) =
        (.passwordErrorMsg .TooShort :: .tryAgainMsg ::
           (password_entry_loop (fun _ => 0) ["Aa1!Aa1!Aa1!Aa1!".toList]).1,
         (password_entry_loop (fun _ => 0) ["Aa1!Aa1!Aa1!Aa1!".toList]).2) :=
  password_entry_loop_sound (fun _ => 0) ["Aa1!Aa1!Aa1!Aa1!".toList]
    "Aa1!Aa1!Aa1!Aa1!".toList "short1A!".toList ["Aa1!Aa1!Aa1!Aa1!".toList] .TooShort
    (by decide) (by decide) (by decide)

/-- C6: an empty password at the prompt falls back to the generator, displays
the generated password, and the pipeline proceeds to encrypt the input with
exactly that generated password. -/
theorem empty_password_falls_back_to_generator
    (fs : String → Option FileContent) (input output : String)
    (rand : Nat → Nat) (answer : List Char) (rest : List (List Char)) (n : Nat)
    (ha : ¬ pyLower (pyStrip answer) = ['y'])
    (hf : fs input = some (.pdf n)) :
    main_run fs input output rand answer ([] :: rest) =
      ([.noPasswordMsg, .generatedPasswordMsg (generate_random_password rand),
        .lockingMsg (generate_random_password rand), .savedMsg output],
       some (.success n),
       fun path => if path = output
         then some (.encryptedPdf n (generate_random_password rand)) else fs path) := by
  have h1 : resolve_password rand answer ([] :: rest) =
      ([.noPasswordMsg, .generatedPasswordMsg (generate_random_password rand)],
       some (.generated (generate_random_password rand))) := by
    unfold resolve_password
    rw [if_neg ha, password_entry_loop_empty]
  have h2 := create_pdf_success fs input output (generate_random_password rand) n
    (generate_random_password_valid rand) hf
  unfold main_run
  rw [h1]
  simp only [ResolvedPassword.password, h2]
  rfl

/-- C6 witness: a concrete run with an empty first entry on a 3-page input. -/
theorem empty_password_falls_back_to_generator_witness :
    main_run (fun path => if path = "in.pdf" then some (.pdf 3) else none)
        "in.pdf" "out.pdf" (fun _ => 0) ['n'] ([] :: []) =
      ([.noPasswordMsg, .generatedPasswordMsg (generate_random_password (fun _ => 0)),
        .lockingMsg (generate_random_password (fun _ => 0)), .savedMsg "out.pdf"],
       some (.success 3),
       fun path => if path = "out.pdf"
         then some (.encryptedPdf 3 (generate_random_password (fun _ => 0)))
         else (fun path => if path = "in.pdf" then some (.pdf 3) else none) path) :=
  empty_password_falls_back_to_generator
    (fun path => if path = "in.pdf" then some (.pdf 3) else none)
    "in.pdf" "out.pdf" (fun _ => 0) ['n'] [] 3 (by decide) (by simp)

/-- C7: with a policy-passing password, a missing input path yields
InputNotFound and an unparsable input yields InputUnreadable; in both cases
the filesystem is returned unchanged — no output is written — and the run
ends with the error report. -/
theorem create_pdf_input_errors (fs : String → Option FileContent)
    (input output : String) (p : List Char)
    (hv : validate_password_strength p = .ok true)
    (hf : fs input = none ∨ fs input = some .notPdf) :
    (fs input = none ∧
      create_password_protected_pdf fs input output p =
        (.inputNotFound, fs, [.lockingMsg p, .notFoundMsg input]))
    ∨ (fs input = some .notPdf ∧
      create_password_protected_pdf fs input output p =
        (.inputUnreadable, fs, [.lockingMsg p, .notValidPdfMsg input])) := by
  cases hf with
  | inl h =>
    exact Or.inl ⟨h, by unfold create_password_protected_pdf; rw [hv, h]⟩
  | inr h =>
    exact Or.inr ⟨h, by unfold create_password_protected_pdf; rw [hv, h]⟩

/-- C7 witness: a concrete run on an empty filesystem. -/
theorem create_pdf_input_errors_witness :
    ((fun _ : String => (none : Option FileContent)) "missing.pdf" = none ∧
      create_password_protected_pdf (fun _ => none) "missing.pdf" "out.pdf"
          "Aa1!Aa1!Aa1!Aa1!".toList =
        (.inputNotFound, fun _ => none,
         [.lockingMsg "Aa1!Aa1!Aa1!Aa1!".toList, .notFoundMsg "missing.pdf"]))
    ∨ ((fun _ : String => (none : Option FileContent)) "missing.pdf" = some .notPdf ∧
      create_password_protected_pdf (fun _ => none) "missing.pdf" "out.pdf"
          "Aa1!Aa1!Aa1!Aa1!".toList =
        (.inputUnreadable, fun _ => none,
         [.lockingMsg "Aa1!Aa1!Aa1!Aa1!".toList, .notValidPdfMsg "missing.pdf"])) :=
  create_pdf_input_errors (fun _ => none) "missing.pdf" "out.pdf"
    "Aa1!Aa1!Aa1!Aa1!".toList (by decide) (Or.inl rfl)

/-- C8: whatever the filesystem holds and wherever the password came from,
once the password passes validation the very first thing
`create_password_protected_pdf` prints — before any file is read or
written — is the password in cleartext. -/
theorem create_pdf_prints_password (fs : String → Option FileContent)
    (input output : String) (p : List Char)
    (hv : validate_password_strength p = .ok true) :
    (create_password_protected_pdf fs input output p).2.2.head? =
      some (.lockingMsg p) := by
  unfold create_password_protected_pdf
  rw [hv]
  cases h : fs input with
  | none => rfl
  | some c => cases c <;> rfl

/-- C8 witness: a user-typed password is printed in cleartext. -/
theorem create_pdf_prints_password_witness :
    (create_password_protected_pdf (fun _ => none) "in.pdf" "out.pdf"
        "Aa1!Aa1!Aa1!Aa1!".toList).2.2.head? =
      some (.lockingMsg "Aa1!Aa1!Aa1!Aa1!".toList) :=
  create_pdf_prints_password (fun _ => none) "in.pdf" "out.pdf"
    "Aa1!Aa1!Aa1!Aa1!".toList (by decide)

/-- C9: `create_password_protected_pdf` re-validates its password first: on
any policy violation it reports that violation and returns with the
filesystem untouched, having printed nothing else — the input is never
opened and no output is written. -/
theorem create_pdf_revalidates (fs : String → Option FileContent)
    (input output : String) (p : List Char) (v : PolicyViolation)
    (hv : validate_password_strength p = .error v) :
    create_password_protected_pdf fs input output p =
      (.passwordError v, fs, [.passwordErrorMsg v]) := by
  unfold create_password_protected_pdf
  rw [hv]

/-- C9 witness: a too-short password is rejected without touching the
filesystem that does contain the input. -/
theorem create_pdf_revalidates_witness :
    create_password_protected_pdf
        (fun path => if path = "in.pdf" then some (.pdf 3) else none)
        "in.pdf" "out.pdf" "short1A!".toList =
      (.passwordError .TooShort,
       fun path => if path = "in.pdf" then some (.pdf 3) else none,
       [.passwordErrorMsg .TooShort]) :=
  create_pdf_revalidates (fun path => if path = "in.pdf" then some (.pdf 3) else none)
    "in.pdf" "out.pdf" "short1A!".toList .TooShort (by decide)

/-- C10: after stripping and lowercasing, exactly the answer "y" selects
auto-generation and every other answer goes to manual entry; "Y" and " y "
qualify, "yes" does not. -/
theorem generation_prompt_exact_y (rand : Nat → Nat) (answer : List Char)
    (entries : List (List Char)) :
    ((pyLower (pyStrip answer) = ['y'] ∧
        resolve_password rand answer entries =
          ([.generatingMsg, .generatedPasswordMsg (generate_random_password rand)],
           some (.generated (generate_random_password rand))))
      ∨ (¬ pyLower (pyStrip answer) = ['y'] ∧
        resolve_password rand answer entries = password_entry_loop rand entries))
    ∧ pyLower (pyStrip ['Y']) = ['y']
    ∧ pyLower (pyStrip [' ', 'y', ' ']) = ['y']
    ∧ ¬ pyLower (pyStrip ['y', 'e', 's']) = ['y'] := by
  refine ⟨?_, by decide, by decide, by decide⟩
  by_cases h : pyLower (pyStrip answer) = ['y']
  · exact Or.inl ⟨h, by unfold resolve_password; rw [if_pos h]⟩
  · exact Or.inr ⟨h, by unfold resolve_password; rw [if_neg h]⟩
